import Mathlib

/-!
Verification development for the tenant-risk decision engine
(feature engineering, model routing, probability calibration,
cost-aware three-tier threshold policy, dynamic thresholds).

Shallow embedding conventions:
* Python floats are modelled as rationals (`ℚ`); the one transcendental
  computation (`exp` inside the Platt-scaling calibrator) is modelled
  over `ℝ`.
* Python dicts with `.get(key, default)` become association lists with
  `dictGet`.
* A fallible computation (Python raising) returns `Except` / `Option`.
* Source file references: `src/scoring.py`, `src/features.py`,
  `config/constants.py`.
-/

namespace Leaseth

/-- Python `dict.get(key, default)` on an association list. -/
def dictGet (d : List (String × ℚ)) (key : String) (default : ℚ) : ℚ :=
  (d.lookup key).getD default

/-- Python 3 `round` (banker's rounding, round-half-to-even) on a rational. -/
def pyRound (x : ℚ) : ℤ :=
  let f := ⌊x⌋
  let frac := x - f
  if frac < 1 / 2 then f
  else if (1 : ℚ) / 2 < frac then f + 1
  else if f % 2 = 0 then f else f + 1

/-- Python `round(x, 2)`. -/
def round2 (x : ℚ) : ℚ :=
  (pyRound (x * 100) : ℚ) / 100

/-! ## config/constants.py -/

/-- config/constants.py: AUTO_APPROVE_THRESHOLD = 0.45. -/
def AUTO_APPROVE_THRESHOLD : ℚ := 0.45

/-- config/constants.py: MANUAL_REVIEW_THRESHOLD = 0.60. -/
def MANUAL_REVIEW_THRESHOLD : ℚ := 0.60

/-- config/constants.py: AUTO_REJECT_THRESHOLD = 0.75. -/
def AUTO_REJECT_THRESHOLD : ℚ := 0.75

/-! ## src/scoring.py: confidence and calibration -/

/-- src/scoring.py `_calculate_confidence`: `max(0, min(1, |p - 0.5| * 2))`. -/
def _calculate_confidence (probability : ℚ) : ℚ :=
  let distance_from_half := |probability - 0.5|
  let confidence := distance_from_half * 2
  max 0 (min 1 confidence)

/-- src/scoring.py `_calibrate_probability`: Platt scaling
`np.clip(1 / (1 + exp(-(a*p + b))), 0, 1)` with per-version coefficients
(V1: a = 1.2, b = -0.3; V3: a = 1.1, b = -0.2).  The Python `except` branch
(return `prob` uncalibrated) is unreachable over `ℝ`, where `exp` is total. -/
noncomputable def _calibrate_probability (prob : ℝ) (is_v1 : Bool) : ℝ :=
  let a : ℝ := if is_v1 then 1.2 else 1.1
  let b : ℝ := if is_v1 then -0.3 else -0.2
  min 1 (max 0 (1 / (1 + Real.exp (-(a * prob + b)))))

/-! ## src/scoring.py: cost-aware three-tier decision -/

/-- Effective approve threshold: `custom_thresholds.get('auto_approve', AUTO_APPROVE_THRESHOLD)`
when custom thresholds are supplied, the static default otherwise. -/
def approve_threshold_of (custom_thresholds : Option (List (String × ℚ))) : ℚ :=
  match custom_thresholds with
  | some d => (d.lookup "auto_approve").getD AUTO_APPROVE_THRESHOLD
  | none => AUTO_APPROVE_THRESHOLD

/-- Effective manual-review threshold, analogous to `approve_threshold_of`. -/
def manual_threshold_of (custom_thresholds : Option (List (String × ℚ))) : ℚ :=
  match custom_thresholds with
  | some d => (d.lookup "manual_review").getD MANUAL_REVIEW_THRESHOLD
  | none => MANUAL_REVIEW_THRESHOLD

/-- Effective reject threshold, analogous to `approve_threshold_of`. -/
def reject_threshold_of (custom_thresholds : Option (List (String × ℚ))) : ℚ :=
  match custom_thresholds with
  | some d => (d.lookup "auto_reject").getD AUTO_REJECT_THRESHOLD
  | none => AUTO_REJECT_THRESHOLD

/-- Return value of `_make_cost_aware_decision`. -/
structure Decision where
  risk_category : String
  recommendation : String
  decision_tier : String
  reasoning : String
  deriving DecidableEq

/-- src/scoring.py `_make_cost_aware_decision`.  `fmtPct` models Python's
percentage formatting of the probability inside the reasoning strings
(the numeric text itself carries no decision content).  The source also
reads `monthly_income`, `monthly_rent` and `rent_to_income_ratio` from
`features` into local variables it never uses; those dead reads are omitted.
`risk_score` is a parameter the source body never reads. -/
def _make_cost_aware_decision (fmtPct : ℚ → String) (probability : ℚ)
    (risk_score : ℤ) (features : List (String × ℚ))
    (custom_thresholds : Option (List (String × ℚ))) : Decision :=
  let approve_threshold := approve_threshold_of custom_thresholds
  let manual_threshold := manual_threshold_of custom_thresholds
  let reject_threshold := reject_threshold_of custom_thresholds
  let credit_score := dictGet features "credit_score" 0
  let previous_evictions := dictGet features "previous_evictions" 0
  if probability < approve_threshold then
    ⟨"LOW", "AUTO_APPROVE", "TIER_1_AUTO_APPROVE",
      "Low default probability (" ++ fmtPct probability ++ "). Strong applicant profile."⟩
  else if probability ≥ reject_threshold then
    if previous_evictions ≥ 2 ∧ credit_score < 600 then
      ⟨"HIGH", "REJECT", "TIER_3_AUTO_REJECT",
        "Very high default probability (" ++ fmtPct probability ++ "). Multiple evictions and poor credit."⟩
    else if previous_evictions ≥ 1 ∧ probability ≥ 0.85 then
      ⟨"HIGH", "REJECT", "TIER_3_AUTO_REJECT",
        "Extremely high default probability (" ++ fmtPct probability ++ ") with eviction history."⟩
    else if previous_evictions = 0 ∧ probability ≥ 0.90 ∧ credit_score < 600 then
      ⟨"HIGH", "REJECT", "TIER_3_AUTO_REJECT",
        "Near-certain default (" ++ fmtPct probability ++ ") with poor credit."⟩
    else
      ⟨"HIGH", "MANUAL_REVIEW", "TIER_2_MANUAL_REVIEW",
        "High probability (" ++ fmtPct probability ++ ") but warrants human review."⟩
  else
    let mid_point := (approve_threshold + manual_threshold) / 2
    if probability < mid_point then
      ⟨"LOW-MEDIUM", "MANUAL_REVIEW", "TIER_2_MANUAL_REVIEW",
        "Moderate probability (" ++ fmtPct probability ++ "). Recommend approval with income verification."⟩
    else if probability < manual_threshold then
      ⟨"MEDIUM", "MANUAL_REVIEW", "TIER_2_MANUAL_REVIEW",
        "Elevated risk (" ++ fmtPct probability ++ "). Consider co-signer or increased deposit."⟩
    else
      ⟨"MEDIUM-HIGH", "MANUAL_REVIEW", "TIER_2_MANUAL_REVIEW",
        "High probability (" ++ fmtPct probability ++ "). Review financial history and references carefully."⟩

/-! ## src/scoring.py: predict_and_score -/

/-- The loaded model registry (globals `V1_MODEL`, `V3_MODEL`, `V1_FEATURES`,
`V3_FEATURES`, `MODEL_HASH_V1`, `MODEL_HASH_V3` after `load_models`).
A model is abstracted as the function computing `predict_proba(X)[0][1]`
from the extracted feature row. -/
structure ModelRegistry where
  v1Model : List ℚ → ℚ
  v3Model : List ℚ → ℚ
  v1Features : List String
  v3Features : List String
  hashV1 : String
  hashV3 : String

/-- Return dict of `predict_and_score` (timing field omitted). -/
structure ScoreResult where
  success : Bool
  default_probability : ℚ
  risk_score : ℤ
  risk_category : String
  recommendation : String
  decision_tier : String
  decision_reasoning : String
  confidence_score : ℚ
  model_version : String
  model_hash : String
  model_used : String
  num_features : ℕ
  deriving DecidableEq

/-- src/scoring.py `predict_and_score`: hybrid model routing and prediction.
Logging, timing and `request_id` are omitted; the models-loaded check is
satisfied by construction because a `ModelRegistry` value carries both
models.  Note the raw probability from the model is used directly for the
risk score, the decision and the confidence; `_calibrate_probability` is
never invoked on this path. -/
def predict_and_score (fmtPct : ℚ → String) (reg : ModelRegistry)
    (engineered_features : List (String × ℚ))
    (custom_thresholds : Option (List (String × ℚ))) : ScoreResult :=
  let previous_evictions := dictGet engineered_features "previous_evictions" 0
  let use_v1_model : Bool := previous_evictions > 0
  let model := if use_v1_model then reg.v1Model else reg.v3Model
  let features := if use_v1_model then reg.v1Features else reg.v3Features
  let model_version := if use_v1_model then "V1_2025_11" else "V3_2025_11"
  let model_hash := if use_v1_model then reg.hashV1 else reg.hashV3
  let X := features.map fun f => dictGet engineered_features f 0
  let probability := model X
  let risk_score := max 0 (min 100 (pyRound (probability * 100)))
  let decision_result :=
    _make_cost_aware_decision fmtPct probability risk_score engineered_features custom_thresholds
  { success := true
    default_probability := probability
    risk_score := risk_score
    risk_category := decision_result.risk_category
    recommendation := decision_result.recommendation
    decision_tier := decision_result.decision_tier
    decision_reasoning := decision_result.reasoning
    confidence_score := _calculate_confidence probability
    model_version := model_version
    model_hash := model_hash
    model_used := if use_v1_model then "V1" else "V3"
    num_features := features.length }

/-! ## src/scoring.py: calculate_dynamic_thresholds -/

/-- Python exceptions that the dynamic-threshold computation can raise. -/
inductive PyError where
  | zeroDivisionError
  deriving DecidableEq

/-- Return dict of `calculate_dynamic_thresholds`. -/
structure DynamicThresholds where
  auto_approve : ℚ
  manual_review : ℚ
  auto_reject : ℚ
  cost_ratio : ℚ
  reasoning : String
  deriving DecidableEq

/-- src/scoring.py `calculate_dynamic_thresholds`.  The source performs
`cost_ratio = fp_cost / fn_cost` with no guard, so `fn_cost = 0` raises
`ZeroDivisionError`; every other input silently computes.  Sequential
`+=`/`-=` updates are modelled as chained lets.  `fmtMoney`/`fmtRatio`
model the currency and ratio formatting in the reasoning string. -/
def calculate_dynamic_thresholds (fmtMoney fmtRatio : ℚ → String)
    (fp_cost fn_cost vacancy_rate : ℚ) (application_volume : String) :
    Except PyError DynamicThresholds :=
  if fn_cost = 0 then Except.error PyError.zeroDivisionError
  else
    let cost_ratio := fp_cost / fn_cost
    let approve0 := AUTO_APPROVE_THRESHOLD
    let manual0 := MANUAL_REVIEW_THRESHOLD
    let reject0 := AUTO_REJECT_THRESHOLD
    let approve1 :=
      if cost_ratio > 1.5 then approve0 + 0.05
      else if cost_ratio < 0.7 then approve0 - 0.05 else approve0
    let manual1 :=
      if cost_ratio > 1.5 then manual0 + 0.05
      else if cost_ratio < 0.7 then manual0 - 0.05 else manual0
    let reject1 :=
      if cost_ratio > 1.5 then reject0 + 0.05
      else if cost_ratio < 0.7 then reject0 - 0.05 else reject0
    let approve2 :=
      if vacancy_rate > 0.10 then approve1 + 0.05
      else if vacancy_rate < 0.03 then approve1 - 0.05 else approve1
    let manual2 :=
      if vacancy_rate > 0.10 then manual1 + 0.05
      else if vacancy_rate < 0.03 then manual1 - 0.05 else manual1
    let approve3 :=
      if application_volume = "high" then approve2 - 0.03
      else if application_volume = "low" then approve2 + 0.03 else approve2
    let manual3 :=
      if application_volume = "high" then manual2 - 0.03
      else if application_volume = "low" then manual2 + 0.03 else manual2
    let approve4 := max 0.20 (min 0.50 approve3)
    let manual4 := max 0.50 (min 0.80 manual3)
    let reject4 := max 0.75 (min 0.95 reject1)
    Except.ok
      { auto_approve := round2 approve4
        manual_review := round2 manual4
        auto_reject := round2 reject4
        cost_ratio := round2 cost_ratio
        reasoning := "FP cost " ++ fmtMoney fp_cost ++ " vs FN cost " ++
          fmtMoney fn_cost ++ " (ratio: " ++ fmtRatio cost_ratio ++ ")" }

/-! ## src/features.py: create_new_features

The transform operates on a pandas DataFrame (a batch of applicant rows).
A raw row is modelled as `RawRecord` (every expected field optional;
`none` models both an absent column entry and NaN, which pandas treats
identically through `fillna`).  The defaulting/cleaning phase produces a
`CleanRecord`; the derivation phase produces a `FullRecord` carrying the
cleaned raw columns plus every engineered column.  Division by zero is
modelled by `ℚ` division (`x / 0 = 0`); in the source the cleaned
denominators (`monthly_income`, `monthly_rent`, `market_median_rent`,
`property_size_sqft`, and the `replace`d history years) are never zero,
so this freedom is exercised only at adversarial inputs no claim touches.
`np.log1p` is an uninterpreted parameter `log1p` of the batch transform:
no claim depends on its values. -/

/-- A raw applicant row: every expected field may be absent/NaN. -/
structure RawRecord where
  bedrooms : Option ℚ := none
  bathrooms : Option ℚ := none
  square_feet : Option ℚ := none
  property_age_years : Option ℚ := none
  parking_spaces : Option ℚ := none
  pets_allowed : Option ℚ := none
  furnished : Option ℚ := none
  monthly_rent : Option ℚ := none
  security_deposit : Option ℚ := none
  lease_term_months : Option ℚ := none
  tenant_age : Option ℚ := none
  monthly_income : Option ℚ := none
  employment_verified : Option ℚ := none
  income_verified : Option ℚ := none
  credit_score : Option ℚ := none
  rental_history_years : Option ℚ := none
  previous_evictions : Option ℚ := none
  market_median_rent : Option ℚ := none
  days_to_rent_property : Option ℚ := none
  local_unemployment_rate : Option ℚ := none
  inflation_rate : Option ℚ := none
  number_of_bedrooms : Option ℚ := none
  property_size_sqft : Option ℚ := none
  property_age : Option ℚ := none
  on_time_payments_percent : Option ℚ := none
  late_payments_count : Option ℚ := none
  missed_payments_count : Option ℚ := none
  country : Option String := none
  city : Option String := none
  property_type : Option String := none
  employment_type : Option String := none
  currency : Option String := none

/-- A row after the defaulting/cleaning phase of `create_new_features`. -/
structure CleanRecord where
  bedrooms : ℚ
  bathrooms : ℚ
  square_feet : ℚ
  property_age_years : ℚ
  parking_spaces : ℚ
  pets_allowed : ℚ
  furnished : ℚ
  monthly_rent : ℚ
  security_deposit : ℚ
  lease_term_months : ℚ
  tenant_age : ℚ
  monthly_income : ℚ
  employment_verified : ℚ
  income_verified : ℚ
  credit_score : ℚ
  rental_history_years : ℚ
  previous_evictions : ℚ
  market_median_rent : ℚ
  days_to_rent_property : ℚ
  local_unemployment_rate : ℚ
  inflation_rate : ℚ
  number_of_bedrooms : ℚ
  property_size_sqft : ℚ
  property_age : ℚ
  on_time_payments_percent : ℚ
  late_payments_count : ℚ
  missed_payments_count : ℚ
  country : String
  city : String
  property_type : String
  employment_type : String
  currency : String

/-- pandas `Series.fillna(d)` pointwise (also covers column creation for an
absent column, which pandas would fill the same way). -/
@[noinline] def fillna (o : Option ℚ) (d : ℚ) : ℚ := o.getD d

/-- pandas `Series.fillna(d)` pointwise for a categorical column. -/
@[noinline] def fillnaS (o : Option String) (d : String) : String := o.getD d

/-- pandas `Series.replace(0, d)` pointwise: an explicit zero becomes `d`. -/
@[noinline] def replace0 (v d : ℚ) : ℚ := if v = 0 then d else v

/-- Defaulting/cleaning phase of `create_new_features` (features.py lines
19-81): `fillna`/column creation with the `numerical_defaults` and
`categorical_defaults` dicts, then `replace(0, ...)` on the five critical
columns.  The alias block (`square_feet` → `property_size_sqft` etc.) is
dead code in the source: its `not in df.columns` guards are always false
because the defaults loop has just created every aliased column. -/
def cleanRec (r : RawRecord) : CleanRecord where
  bedrooms := fillna r.bedrooms 1
  bathrooms := fillna r.bathrooms 1
  square_feet := fillna r.square_feet 800
  property_age_years := fillna r.property_age_years 15
  parking_spaces := fillna r.parking_spaces 0
  pets_allowed := fillna r.pets_allowed 0
  furnished := fillna r.furnished 0
  monthly_rent := replace0 (fillna r.monthly_rent 10000) 10000
  security_deposit := fillna r.security_deposit 20000
  lease_term_months := fillna r.lease_term_months 12
  tenant_age := fillna r.tenant_age 35
  monthly_income := replace0 (fillna r.monthly_income 40000) 40000
  employment_verified := fillna r.employment_verified 0
  income_verified := fillna r.income_verified 0
  credit_score := replace0 (fillna r.credit_score 650) 650
  rental_history_years := fillna r.rental_history_years 3
  previous_evictions := fillna r.previous_evictions 0
  market_median_rent := replace0 (fillna r.market_median_rent 12000) 12000
  days_to_rent_property := fillna r.days_to_rent_property 30
  local_unemployment_rate := fillna r.local_unemployment_rate 5
  inflation_rate := fillna r.inflation_rate 5
  number_of_bedrooms := fillna r.number_of_bedrooms 1
  property_size_sqft := replace0 (fillna r.property_size_sqft 800) 800
  property_age := fillna r.property_age 15
  on_time_payments_percent := fillna r.on_time_payments_percent 95
  late_payments_count := fillna r.late_payments_count 0
  missed_payments_count := fillna r.missed_payments_count 0
  country := fillnaS r.country "Unknown"
  city := fillnaS r.city "Unknown"
  property_type := fillnaS r.property_type "Apartment"
  employment_type := fillnaS r.employment_type "Unknown"
  currency := fillnaS r.currency "INR"

/-- pandas `Series.clip(lo, hi)` pointwise. -/
@[noinline] def clip (lo hi x : ℚ) : ℚ := max lo (min hi x)

/-- numpy `astype(int)` on a float value: truncation toward zero. -/
@[noinline] def pyInt (x : ℚ) : ℤ := if 0 ≤ x then ⌊x⌋ else ⌈x⌉

/-- pandas `Series.max()` (`none` models the NaN result on an empty frame). -/
def colMax (l : List ℚ) : Option ℚ :=
  l.foldl (fun acc v =>
    match acc with
    | none => some v
    | some m => some (max m v)) none

/-- features.py lines 200-201: `col.max() if col.max() > 0 else 1`
(on an empty frame the NaN comparison is false, giving 1). -/
def maxOr1 (l : List ℚ) : ℚ :=
  match colMax l with
  | some m => if 0 < m then m else 1
  | none => 1

/-- Distinct values of a column in order of first appearance
(the code order of `pd.factorize`). -/
def firstSeen (l : List String) : List String :=
  l.foldl (fun acc v => if v ∈ acc then acc else acc ++ [v]) []

/-- Index of the first occurrence of `v` (0 when absent from the list,
which never happens for a batch member value). -/
def firstIndex (v : String) : List String → ℕ
  | [] => 0
  | w :: ws => if w = v then 0 else firstIndex v ws + 1

/-- pandas `pd.factorize(column)[0]` entry for value `v`: its code in
first-seen order (no NaN remains after the categorical defaults). -/
def factorizeCode (column : List String) (v : String) : ℤ :=
  (firstIndex v (firstSeen column) : ℤ)

/-- Batch-level quantities of `create_new_features`: the two column maxima
used for normalization and the categorical columns used by `pd.factorize`. -/
structure BatchStats where
  max_late : ℚ
  max_missed : ℚ
  countries : List String
  cities : List String
  property_types : List String
  employment_types : List String
  currencies : List String

/-- Batch-level quantities computed over the cleaned batch. -/
def batchStats (cleaned : List CleanRecord) : BatchStats where
  max_late := maxOr1 (cleaned.map (·.late_payments_count))
  max_missed := maxOr1 (cleaned.map (·.missed_payments_count))
  countries := cleaned.map (·.country)
  cities := cleaned.map (·.city)
  property_types := cleaned.map (·.property_type)
  employment_types := cleaned.map (·.employment_type)
  currencies := cleaned.map (·.currency)

/-- features.py lines 262-267: `pd.cut(credit_score, bins=[0,580,670,740,850],
labels=[3,2,1,0], include_lowest=True)`.  `none` models the NaN produced
for a value outside the bins, on which the subsequent `astype(int)`
raises. -/
def credit_tier_of (c : ℚ) : Option ℤ :=
  if c < 0 ∨ 850 < c then none
  else if c ≤ 580 then some 3
  else if c ≤ 670 then some 2
  else if c ≤ 740 then some 1
  else some 0

/-- A fully engineered row: the cleaned raw columns (pandas keeps them in
the frame) plus every derived column, in source order. -/
structure FullRecord where
  raw : CleanRecord
  payment_delinquency_ratio : ℚ
  payment_severity_score : ℚ
  payment_reliability_index : ℚ
  payment_risk_binary : ℚ
  payment_perfection : ℚ
  payment_consistency : ℚ
  payment_deterioration_rate : ℚ
  payment_health_score : ℚ
  credit_x_payment_reliability : ℚ
  payment_risk_x_income_burden : ℚ
  verified_income_x_payment : ℚ
  rent_burden_x_late_payments : ℚ
  employment_x_payment_consistency : ℚ
  credit_x_payment_severity : ℚ
  experience_x_payment_reliability : ℚ
  verification_x_payment_health : ℚ
  late_payments_normalized : ℚ
  missed_payments_normalized : ℚ
  on_time_normalized : ℚ
  payment_risk_composite : ℚ
  payment_composite_squared : ℚ
  payment_composite_log : ℚ
  behavioral_payment_score : ℚ
  ultimate_payment_risk_index : ℚ
  absolute_income : ℚ
  absolute_credit_score : ℚ
  absolute_rent : ℚ
  income_multiple : ℚ
  rent_to_income_ratio : ℚ
  income_to_rent_buffer : ℚ
  rent_vs_market_ratio : ℚ
  rent_per_sqft : ℚ
  debt_to_income_proxy : ℚ
  credit_tier : ℤ
  income_stability : ℚ
  verification_score : ℚ
  high_rent_burden : ℚ
  subprime_credit : ℚ
  tenant_stability_score : ℚ
  property_desirability_score : ℚ
  income_x_credit : ℚ
  rent_burden_x_credit : ℚ
  verification_x_income : ℚ
  credit_x_verification : ℚ
  stability_x_rent_burden : ℚ
  income_multiple_x_credit : ℚ
  security_deposit_ratio : ℚ
  property_age_normalized : ℚ
  local_unemployment_rate_float : ℚ
  inflation_rate_float : ℚ
  market_economic_factor : ℚ
  country_enc : ℤ
  city_enc : ℤ
  property_type_enc : ℤ
  employment_type_enc : ℤ
  currency_enc : ℤ

/-- Derivation phase of `create_new_features` for one cleaned row, given
the batch statistics and this row's (already validated) credit tier.
Each let mirrors one column assignment of features.py, in source order. -/
def deriveRec (log1p : ℚ → ℚ) (s : BatchStats) (tier : ℤ) (c : CleanRecord) :
    FullRecord :=
  let payment_delinquency_ratio :=
    c.late_payments_count / (c.late_payments_count + c.on_time_payments_percent + 1)
  let payment_severity_score :=
    c.late_payments_count * 2 + c.missed_payments_count * 5
  let payment_reliability_index :=
    (c.on_time_payments_percent / 100) * (1 - clip 0 1 (c.late_payments_count / 12))
  let payment_risk_binary : ℚ :=
    if 0 < c.late_payments_count ∨ 0 < c.missed_payments_count then 1 else 0
  let payment_perfection : ℚ :=
    if c.late_payments_count = 0 ∧ c.missed_payments_count = 0 then 1 else 0
  let payment_consistency :=
    1 / (1 + (c.late_payments_count + c.missed_payments_count) /
      replace0 c.rental_history_years 1)
  let payment_deterioration_rate :=
    c.late_payments_count / replace0 c.rental_history_years 0.5
  let payment_health_score :=
    clip 0 10 (10 - clip 0 5 (c.late_payments_count * 0.5) -
      clip 0 5 (c.missed_payments_count * 1.5))
  let credit_x_payment_reliability :=
    (c.credit_score / 850) * payment_reliability_index
  let payment_risk_x_income_burden :=
    payment_severity_score / (c.monthly_income / 1000)
  let verified_income_x_payment :=
    (pyInt c.income_verified : ℚ) * (1 - payment_delinquency_ratio)
  let rent_burden_x_late_payments :=
    (c.monthly_rent / c.monthly_income) * (1 + c.late_payments_count)
  let employment_x_payment_consistency :=
    (pyInt c.employment_verified : ℚ) * payment_consistency
  let credit_x_payment_severity :=
    (1 - c.credit_score / 850) * payment_severity_score
  let experience_x_payment_reliability :=
    clip 0 1 (c.rental_history_years / 10) * payment_reliability_index
  let verification_score_raw :=
    (pyInt c.employment_verified : ℚ) + (pyInt c.income_verified : ℚ)
  let verification_x_payment_health :=
    verification_score_raw * (payment_health_score / 10)
  let late_payments_normalized := clip 0 1 (c.late_payments_count / s.max_late)
  let missed_payments_normalized := clip 0 1 (c.missed_payments_count / s.max_missed)
  let on_time_normalized := clip 0 1 (c.on_time_payments_percent / 100)
  let payment_risk_composite :=
    clip 0 1 (late_payments_normalized * 0.25 + missed_payments_normalized * 0.35 +
      (1 - on_time_normalized) * 0.20 + clip 0 1 payment_deterioration_rate * 0.20) * 10
  let payment_composite_squared := payment_risk_composite ^ 2
  let payment_composite_log := log1p payment_risk_composite
  let behavioral_payment_score :=
    (payment_reliability_index * 0.40 + payment_consistency * 0.30 +
      (1 - payment_delinquency_ratio) * 0.30) * 10
  let ultimate_payment_risk_index :=
    clip 0 10 (payment_risk_composite * 0.50 + (10 - behavioral_payment_score) * 0.30 +
      clip 0 10 payment_severity_score * 0.20)
  let income_multiple := c.monthly_income / c.monthly_rent
  let rent_to_income_ratio := c.monthly_rent / c.monthly_income
  let income_stability : ℚ :=
    if c.employment_verified = 1 ∧ c.monthly_income ≥ c.monthly_rent * 3 then 1 else 0
  let verification_score :=
    (pyInt c.employment_verified : ℚ) + (pyInt c.income_verified : ℚ)
  let high_rent_burden : ℚ := if rent_to_income_ratio > 0.4 then 1 else 0
  let tenant_stability_score :=
    clip 0 1 (c.rental_history_years / 10) * 0.6 +
      clip 0 1 (c.lease_term_months / 24) * 0.4
  { raw := c
    payment_delinquency_ratio := payment_delinquency_ratio
    payment_severity_score := payment_severity_score
    payment_reliability_index := payment_reliability_index
    payment_risk_binary := payment_risk_binary
    payment_perfection := payment_perfection
    payment_consistency := payment_consistency
    payment_deterioration_rate := payment_deterioration_rate
    payment_health_score := payment_health_score
    credit_x_payment_reliability := credit_x_payment_reliability
    payment_risk_x_income_burden := payment_risk_x_income_burden
    verified_income_x_payment := verified_income_x_payment
    rent_burden_x_late_payments := rent_burden_x_late_payments
    employment_x_payment_consistency := employment_x_payment_consistency
    credit_x_payment_severity := credit_x_payment_severity
    experience_x_payment_reliability := experience_x_payment_reliability
    verification_x_payment_health := verification_x_payment_health
    late_payments_normalized := late_payments_normalized
    missed_payments_normalized := missed_payments_normalized
    on_time_normalized := on_time_normalized
    payment_risk_composite := payment_risk_composite
    payment_composite_squared := payment_composite_squared
    payment_composite_log := payment_composite_log
    behavioral_payment_score := behavioral_payment_score
    ultimate_payment_risk_index := ultimate_payment_risk_index
    absolute_income := c.monthly_income
    absolute_credit_score := c.credit_score
    absolute_rent := c.monthly_rent
    income_multiple := income_multiple
    rent_to_income_ratio := rent_to_income_ratio
    income_to_rent_buffer := max 0 (c.monthly_income - c.monthly_rent)
    rent_vs_market_ratio := c.monthly_rent / c.market_median_rent
    rent_per_sqft := c.monthly_rent / c.property_size_sqft
    debt_to_income_proxy := c.monthly_rent / c.monthly_income
    credit_tier := tier
    income_stability := income_stability
    verification_score := verification_score
    high_rent_burden := high_rent_burden
    subprime_credit := if c.credit_score < 670 then 1 else 0
    tenant_stability_score := tenant_stability_score
    property_desirability_score :=
      c.furnished * 0.3 + clip 0 1 (c.parking_spaces / 3) * 0.3 +
        clip 0 1 ((20 - c.property_age_years) / 20) * 0.4
    income_x_credit := (c.monthly_income / 10000) * (c.credit_score / 100)
    rent_burden_x_credit := rent_to_income_ratio * (1 - c.credit_score / 850)
    verification_x_income := verification_score * log1p c.monthly_income
    credit_x_verification := (c.credit_score / 850) * verification_score
    stability_x_rent_burden := tenant_stability_score * (1 - high_rent_burden)
    income_multiple_x_credit := income_multiple * (c.credit_score / 850)
    security_deposit_ratio := c.security_deposit / c.monthly_rent
    property_age_normalized := c.property_age_years / 50
    local_unemployment_rate_float := c.local_unemployment_rate
    inflation_rate_float := c.inflation_rate
    market_economic_factor :=
      (1 - c.local_unemployment_rate / 10) * (1 - c.inflation_rate / 10)
    country_enc := factorizeCode s.countries c.country
    city_enc := factorizeCode s.cities c.city
    property_type_enc := factorizeCode s.property_types c.property_type
    employment_type_enc := factorizeCode s.employment_types c.employment_type
    currency_enc := factorizeCode s.currencies c.currency }

/-- src/features.py `create_new_features` on a batch: clean every row,
compute batch statistics, then derive every engineered column.  The only
failure point is `credit_tier`: `pd.cut` yields NaN for a credit score
outside the bins and the following `astype(int)` raises (`none`). -/
def create_new_features (log1p : ℚ → ℚ) (df_in : List RawRecord) :
    Option (List FullRecord) :=
  let cleaned := df_in.map cleanRec
  let s := batchStats cleaned
  if cleaned.all fun c => (credit_tier_of c.credit_score).isSome then
    some (cleaned.map fun c =>
      deriveRec log1p s ((credit_tier_of c.credit_score).getD 0) c)
  else none

/-- Reading a fully engineered row back as raw input for re-application
(every raw column is present in the output frame). -/
def to_raw_input (fr : FullRecord) : RawRecord where
  bedrooms := some fr.raw.bedrooms
  bathrooms := some fr.raw.bathrooms
  square_feet := some fr.raw.square_feet
  property_age_years := some fr.raw.property_age_years
  parking_spaces := some fr.raw.parking_spaces
  pets_allowed := some fr.raw.pets_allowed
  furnished := some fr.raw.furnished
  monthly_rent := some fr.raw.monthly_rent
  security_deposit := some fr.raw.security_deposit
  lease_term_months := some fr.raw.lease_term_months
  tenant_age := some fr.raw.tenant_age
  monthly_income := some fr.raw.monthly_income
  employment_verified := some fr.raw.employment_verified
  income_verified := some fr.raw.income_verified
  credit_score := some fr.raw.credit_score
  rental_history_years := some fr.raw.rental_history_years
  previous_evictions := some fr.raw.previous_evictions
  market_median_rent := some fr.raw.market_median_rent
  days_to_rent_property := some fr.raw.days_to_rent_property
  local_unemployment_rate := some fr.raw.local_unemployment_rate
  inflation_rate := some fr.raw.inflation_rate
  number_of_bedrooms := some fr.raw.number_of_bedrooms
  property_size_sqft := some fr.raw.property_size_sqft
  property_age := some fr.raw.property_age
  on_time_payments_percent := some fr.raw.on_time_payments_percent
  late_payments_count := some fr.raw.late_payments_count
  missed_payments_count := some fr.raw.missed_payments_count
  country := some fr.raw.country
  city := some fr.raw.city
  property_type := some fr.raw.property_type
  employment_type := some fr.raw.employment_type
  currency := some fr.raw.currency

/-! ## Example inputs used by witnesses and counterexamples -/

/-- A registry whose models always return raw probability 1/2
(hash/feature values arbitrary). -/
def constHalfRegistry : ModelRegistry where
  v1Model := fun _ => 1 / 2
  v3Model := fun _ => 1 / 2
  v1Features := []
  v3Features := []
  hashV1 := "hashV1"
  hashV3 := "hashV3"

/-! ## Claim theorems -/

/-- C8: the confidence estimator computes `clamp(2 * |q - 0.5|, 0, 1)`;
for q in [0, 1] it is symmetric under q ↦ 1 - q, equals 0 at q = 0.5 and
equals 1 at q = 0 and q = 1. -/
theorem C8_confidence_clamp_symmetric (q : ℚ) :
    _calculate_confidence q = max 0 (min 1 (2 * |q - 0.5|)) ∧
    (0 ≤ q → q ≤ 1 → _calculate_confidence q = _calculate_confidence (1 - q)) ∧
    _calculate_confidence 0.5 = 0 ∧
    _calculate_confidence 0 = 1 ∧
    _calculate_confidence 1 = 1 := by
  have habs : |(1 : ℚ) / 2| = 1 / 2 := abs_of_nonneg (by norm_num)
  refine ⟨?_, fun _ _ => ?_, by norm_num [_calculate_confidence],
    by norm_num [_calculate_confidence, habs],
    by norm_num [_calculate_confidence, habs]⟩
  · unfold _calculate_confidence
    rw [mul_comm]
  · unfold _calculate_confidence
    rw [show (1 : ℚ) - q - 0.5 = -(q - 0.5) by ring, abs_neg]

/-- C8 witness at q = 1/4 (hypotheses 0 ≤ q and q ≤ 1 discharged). -/
theorem C8_confidence_clamp_symmetric_witness :
    _calculate_confidence (1 / 4) = _calculate_confidence (1 - 1 / 4) :=
  (C8_confidence_clamp_symmetric (1 / 4)).2.1 (by norm_num) (by norm_num)

/-- C7: routing depends only on the prior-eviction count: a positive
`previous_evictions` entry selects the V1 handle (its features, version
label, hash), otherwise the V3 handle is selected, and the returned
metadata (model_used, model_version, model_hash, num_features, and the
probability computed from the selected feature list) identifies the
handle actually used. -/
theorem C7_routing_by_evictions (fmtPct : ℚ → String) (reg : ModelRegistry)
    (feats : List (String × ℚ)) (ct : Option (List (String × ℚ))) :
    (0 < dictGet feats "previous_evictions" 0 →
      (predict_and_score fmtPct reg feats ct).model_used = "V1" ∧
      (predict_and_score fmtPct reg feats ct).model_version = "V1_2025_11" ∧
      (predict_and_score fmtPct reg feats ct).model_hash = reg.hashV1 ∧
      (predict_and_score fmtPct reg feats ct).num_features = reg.v1Features.length ∧
      (predict_and_score fmtPct reg feats ct).default_probability =
        reg.v1Model (reg.v1Features.map fun f => dictGet feats f 0)) ∧
    (¬ 0 < dictGet feats "previous_evictions" 0 →
      (predict_and_score fmtPct reg feats ct).model_used = "V3" ∧
      (predict_and_score fmtPct reg feats ct).model_version = "V3_2025_11" ∧
      (predict_and_score fmtPct reg feats ct).model_hash = reg.hashV3 ∧
      (predict_and_score fmtPct reg feats ct).num_features = reg.v3Features.length ∧
      (predict_and_score fmtPct reg feats ct).default_probability =
        reg.v3Model (reg.v3Features.map fun f => dictGet feats f 0)) := by
  constructor <;> intro h <;>
    simp [predict_and_score, h, gt_iff_lt]

/-- C7 witness: one eviction routes to V1 on a concrete call. -/
theorem C7_routing_by_evictions_witness :
    (predict_and_score (fun _ => "") constHalfRegistry
      [("previous_evictions", 1)] none).model_used = "V1" ∧
    (predict_and_score (fun _ => "") constHalfRegistry
      [("previous_evictions", 1)] none).model_version = "V1_2025_11" :=
  ⟨((C7_routing_by_evictions (fun _ => "") constHalfRegistry
      [("previous_evictions", 1)] none).1 (by decide)).1,
   ((C7_routing_by_evictions (fun _ => "") constHalfRegistry
      [("previous_evictions", 1)] none).1 (by decide)).2.1⟩

/-- C4: the dynamic-threshold computation does not validate `fn_cost`:
at fn_cost = 0 the unguarded division raises ZeroDivisionError (a division
fault, not a descriptive validation error), and a negative fn_cost is
accepted silently, producing a negative cost ratio. -/
theorem C4_fn_cost_division_fault (fmtMoney fmtRatio : ℚ → String) :
    calculate_dynamic_thresholds fmtMoney fmtRatio 5000 0 0.05 "normal" =
      Except.error PyError.zeroDivisionError ∧
    ∃ r, calculate_dynamic_thresholds fmtMoney fmtRatio 5000 (-1000) 0.05 "normal" =
      Except.ok r ∧ r.cost_ratio = -5 := by
  refine ⟨rfl, ⟨_, rfl, ?_⟩⟩
  show round2 ((5000 : ℚ) / -1000) = -5
  norm_num [round2, pyRound]

/-- C1: the scoring path never applies the calibrator.  On a concrete call
whose model returns raw probability 1/2 (no evictions, so the V3 model and
V3 calibration coefficients would apply), the result's probability field is
the raw 1/2, the confidence is computed from the raw 1/2, and the decision
is made from the raw 1/2 — while the calibrated value
`_calibrate_probability (1/2) false` is strictly greater than 1/2, so the
value the claim says is used is never the value actually used. -/
theorem C1_calibration_not_applied :
    (predict_and_score (fun _ => "") constHalfRegistry [] none).default_probability = 1 / 2 ∧
    (predict_and_score (fun _ => "") constHalfRegistry [] none).confidence_score =
      _calculate_confidence (1 / 2) ∧
    (predict_and_score (fun _ => "") constHalfRegistry [] none).recommendation =
      (_make_cost_aware_decision (fun _ => "") (1 / 2) 50 [] none).recommendation ∧
    (1 : ℝ) / 2 < _calibrate_probability (1 / 2) false := by
  refine ⟨rfl, rfl, rfl, ?_⟩
  have key : ∀ x : ℝ, x < 0 → (1 : ℝ) / 2 < min 1 (max 0 (1 / (1 + Real.exp x))) := by
    intro x hx
    have he : Real.exp x < 1 := Real.exp_lt_one_iff.mpr hx
    have hep : (0 : ℝ) < Real.exp x := Real.exp_pos x
    have hv : (1 : ℝ) / 2 < 1 / (1 + Real.exp x) := by
      rw [div_lt_div_iff₀ (by norm_num) (by linarith)]
      linarith
    exact lt_min (by norm_num) (lt_of_lt_of_le hv (le_max_right 0 _))
  have h := key (-((1.1 : ℝ) * (1 / 2) + -0.2)) (by norm_num)
  simpa [_calibrate_probability] using h

/-- C2: when the probability reaches the reject threshold (of a threshold
set satisfying the data-model invariant approve ≤ reject), the
recommendation is REJECT with Tier 3 exactly when one of the three
corroborating evidence conditions holds; otherwise the decision is
downgraded to Tier 2 manual review. -/
theorem C2_reject_requires_evidence (fmtPct : ℚ → String) (q : ℚ) (rs : ℤ)
    (feats : List (String × ℚ)) (ct : Option (List (String × ℚ)))
    (hord : approve_threshold_of ct ≤ reject_threshold_of ct)
    (hq : reject_threshold_of ct ≤ q) :
    (((_make_cost_aware_decision fmtPct q rs feats ct).recommendation = "REJECT" ∧
      (_make_cost_aware_decision fmtPct q rs feats ct).decision_tier = "TIER_3_AUTO_REJECT") ↔
      ((2 ≤ dictGet feats "previous_evictions" 0 ∧ dictGet feats "credit_score" 0 < 600) ∨
       (1 ≤ dictGet feats "previous_evictions" 0 ∧ (0.85 : ℚ) ≤ q) ∨
       (dictGet feats "previous_evictions" 0 = 0 ∧ (0.90 : ℚ) ≤ q ∧
        dictGet feats "credit_score" 0 < 600))) ∧
    (¬ ((2 ≤ dictGet feats "previous_evictions" 0 ∧ dictGet feats "credit_score" 0 < 600) ∨
       (1 ≤ dictGet feats "previous_evictions" 0 ∧ (0.85 : ℚ) ≤ q) ∨
       (dictGet feats "previous_evictions" 0 = 0 ∧ (0.90 : ℚ) ≤ q ∧
        dictGet feats "credit_score" 0 < 600)) →
      (_make_cost_aware_decision fmtPct q rs feats ct).recommendation = "MANUAL_REVIEW" ∧
      (_make_cost_aware_decision fmtPct q rs feats ct).decision_tier = "TIER_2_MANUAL_REVIEW") := by
  have h1 : ¬ q < approve_threshold_of ct := not_lt.mpr (le_trans hord hq)
  simp only [_make_cost_aware_decision, ge_iff_le]
  rw [if_neg h1, if_pos hq]
  by_cases e1 : 2 ≤ dictGet feats "previous_evictions" 0 ∧ dictGet feats "credit_score" 0 < 600
  · rw [if_pos e1]
    simp [e1]
  · rw [if_neg e1]
    by_cases e2 : 1 ≤ dictGet feats "previous_evictions" 0 ∧ (0.85 : ℚ) ≤ q
    · rw [if_pos e2]
      simp [e1, e2]
    · rw [if_neg e2]
      by_cases e3 : dictGet feats "previous_evictions" 0 = 0 ∧ (0.90 : ℚ) ≤ q ∧
          dictGet feats "credit_score" 0 < 600
      · rw [if_pos e3]
        simp [e1, e2, e3]
      · rw [if_neg e3]
        simp [e1, e2, e3]

/-- C2 witness: the documented scenario previous_evictions = 2,
credit_score = 550, q = 0.80 with default thresholds is auto-rejected. -/
theorem C2_reject_requires_evidence_witness :
    (_make_cost_aware_decision (fun _ => "") 0.8 80
      [("previous_evictions", 2), ("credit_score", 550)] none).recommendation = "REJECT" ∧
    (_make_cost_aware_decision (fun _ => "") 0.8 80
      [("previous_evictions", 2), ("credit_score", 550)] none).decision_tier =
      "TIER_3_AUTO_REJECT" :=
  ((C2_reject_requires_evidence (fun _ => "") 0.8 80
      [("previous_evictions", 2), ("credit_score", 550)] none
      (by norm_num [approve_threshold_of, reject_threshold_of,
        AUTO_APPROVE_THRESHOLD, AUTO_REJECT_THRESHOLD])
      (by norm_num [reject_threshold_of, AUTO_REJECT_THRESHOLD])).1).mpr
    (Or.inl ⟨by decide, by decide⟩)

set_option maxHeartbeats 3200000 in
/-- C3: for any costs with positive fn_cost, any vacancy rate and any
volume string, the recomputed thresholds land in their clamp ranges
(approve in [0.20, 0.50], manual in [0.50, 0.80], reject in [0.75, 0.95])
and satisfy approve ≤ manual ≤ reject. -/
theorem C3_dynamic_thresholds_clamped_ordered (fmtMoney fmtRatio : ℚ → String)
    (fp_cost fn_cost vacancy_rate : ℚ) (application_volume : String)
    (hfn : 0 < fn_cost) :
    ∃ r, calculate_dynamic_thresholds fmtMoney fmtRatio fp_cost fn_cost
        vacancy_rate application_volume = Except.ok r ∧
      0.20 ≤ r.auto_approve ∧ r.auto_approve ≤ 0.50 ∧
      0.50 ≤ r.manual_review ∧ r.manual_review ≤ 0.80 ∧
      0.75 ≤ r.auto_reject ∧ r.auto_reject ≤ 0.95 ∧
      r.auto_approve ≤ r.manual_review ∧ r.manual_review ≤ r.auto_reject := by
  have hfn0 : fn_cost ≠ 0 := ne_of_gt hfn
  simp only [calculate_dynamic_thresholds]
  rw [if_neg hfn0]
  by_cases h1 : fp_cost / fn_cost > 1.5
  all_goals first | simp only [if_pos h1] | simp only [if_neg h1]
  all_goals by_cases h2 : fp_cost / fn_cost < 0.7
  all_goals first | simp only [if_pos h2] | simp only [if_neg h2] | skip
  all_goals by_cases h3 : vacancy_rate > 0.10
  all_goals first | simp only [if_pos h3] | simp only [if_neg h3] | skip
  all_goals by_cases h4 : vacancy_rate < 0.03
  all_goals first | simp only [if_pos h4] | simp only [if_neg h4] | skip
  all_goals by_cases h5 : application_volume = "high"
  all_goals first | simp only [if_pos h5] | simp only [if_neg h5] | skip
  all_goals by_cases h6 : application_volume = "low"
  all_goals first | simp only [if_pos h6] | simp only [if_neg h6] | skip
  all_goals refine ⟨_, rfl, ?_⟩
  all_goals norm_num [round2, pyRound, max_def, min_def, AUTO_APPROVE_THRESHOLD,
    MANUAL_REVIEW_THRESHOLD, AUTO_REJECT_THRESHOLD]

/-- C3 witness: the documented scenario fp_cost = 5000, fn_cost = 3000,
vacancy_rate = 0.12, volume "low" (hypothesis 0 < fn_cost discharged). -/
theorem C3_dynamic_thresholds_clamped_ordered_witness :
    ∃ r, calculate_dynamic_thresholds (fun _ => "") (fun _ => "") 5000 3000
        0.12 "low" = Except.ok r ∧
      0.20 ≤ r.auto_approve ∧ r.auto_approve ≤ 0.50 ∧
      0.50 ≤ r.manual_review ∧ r.manual_review ≤ 0.80 ∧
      0.75 ≤ r.auto_reject ∧ r.auto_reject ≤ 0.95 ∧
      r.auto_approve ≤ r.manual_review ∧ r.manual_review ≤ r.auto_reject :=
  C3_dynamic_thresholds_clamped_ordered (fun _ => "") (fun _ => "") 5000 3000
    0.12 "low" (by norm_num)

/-! ## Supporting lemmas for the feature-engineering claims -/

lemma fillna_some (v d : ℚ) : fillna (some v) d = v := rfl

lemma fillnaS_some (v d : String) : fillnaS (some v) d = v := rfl

lemma replace0_idem (v d : ℚ) : replace0 (replace0 v d) d = replace0 v d := by
  unfold replace0
  split_ifs with h1 h2 h3 <;> simp_all

/-- Reading the output frame's raw columns back as raw input, as a function
of the cleaned row (this is what `to_raw_input` computes, since derivation
copies the cleaned row into the output unchanged). -/
def raw_again (c : CleanRecord) : RawRecord where
  bedrooms := some c.bedrooms
  bathrooms := some c.bathrooms
  square_feet := some c.square_feet
  property_age_years := some c.property_age_years
  parking_spaces := some c.parking_spaces
  pets_allowed := some c.pets_allowed
  furnished := some c.furnished
  monthly_rent := some c.monthly_rent
  security_deposit := some c.security_deposit
  lease_term_months := some c.lease_term_months
  tenant_age := some c.tenant_age
  monthly_income := some c.monthly_income
  employment_verified := some c.employment_verified
  income_verified := some c.income_verified
  credit_score := some c.credit_score
  rental_history_years := some c.rental_history_years
  previous_evictions := some c.previous_evictions
  market_median_rent := some c.market_median_rent
  days_to_rent_property := some c.days_to_rent_property
  local_unemployment_rate := some c.local_unemployment_rate
  inflation_rate := some c.inflation_rate
  number_of_bedrooms := some c.number_of_bedrooms
  property_size_sqft := some c.property_size_sqft
  property_age := some c.property_age
  on_time_payments_percent := some c.on_time_payments_percent
  late_payments_count := some c.late_payments_count
  missed_payments_count := some c.missed_payments_count
  country := some c.country
  city := some c.city
  property_type := some c.property_type
  employment_type := some c.employment_type
  currency := some c.currency

lemma to_raw_input_deriveRec (log1p : ℚ → ℚ) (s : BatchStats) (tier : ℤ)
    (c : CleanRecord) : to_raw_input (deriveRec log1p s tier c) = raw_again c := rfl

/-- Cleaning a row that is already the cleaned image of some raw row is a
no-op: `fillna` sees every field present and `replace(0, d)` is idempotent. -/
lemma clean_raw_again_clean (r : RawRecord) :
    cleanRec (raw_again (cleanRec r)) = cleanRec r := by
  simp only [cleanRec, raw_again, fillna, fillnaS, Option.getD_some, replace0_idem]

lemma mapEqSelf {α : Type} (f : α → α) :
    ∀ l : List α, (∀ a ∈ l, f a = a) → l.map f = l := by
  intro l h
  induction l with
  | nil => rfl
  | cons a t ih =>
      simp only [List.map_cons]
      rw [h a (by simp), ih fun x hx => h x (by simp [hx])]

/-- Success case of `create_new_features`: when every cleaned credit score
falls inside the `pd.cut` bins, the batch transform cleans every row and
derives every engineered column. -/
lemma create_some (log1p : ℚ → ℚ) (b : List RawRecord)
    (h : ∀ x ∈ b, (credit_tier_of (cleanRec x).credit_score).isSome = true) :
    create_new_features log1p b =
      some ((b.map cleanRec).map fun c =>
        deriveRec log1p (batchStats (b.map cleanRec))
          ((credit_tier_of c.credit_score).getD 0) c) := by
  simp only [create_new_features]
  rw [if_pos]
  exact List.all_eq_true.mpr fun c hc => by
    obtain ⟨x, hx, rfl⟩ := List.mem_map.mp hc
    exact h x hx

lemma factorize_singleton (v : String) : factorizeCode [v] v = 0 := by
  simp [factorizeCode, firstSeen, firstIndex]

lemma maxOr1_singleton (x : ℚ) : maxOr1 [x] = if 0 < x then x else 1 := by
  simp [maxOr1, colMax]

/-! ## Feature-engineering claim theorems -/

/-- C9: for a single row engineered in isolation, every categorical encoded
feature is 0, whatever the categorical values are, because first-seen-order
factorization assigns code 0 to the only value present. -/
theorem C9_singleton_batch_encodes_zero (log1p : ℚ → ℚ) (r : RawRecord)
    (h : (credit_tier_of (cleanRec r).credit_score).isSome = true) :
    ∃ fr, create_new_features log1p [r] = some [fr] ∧
      fr.country_enc = 0 ∧ fr.city_enc = 0 ∧ fr.property_type_enc = 0 ∧
      fr.employment_type_enc = 0 ∧ fr.currency_enc = 0 := by
  have h' : ∀ x ∈ [r], (credit_tier_of (cleanRec x).credit_score).isSome = true := by
    simpa using h
  refine ⟨_, create_some log1p [r] h', ?_, ?_, ?_, ?_, ?_⟩ <;>
    exact factorize_singleton _

/-- C9 witness: the all-defaults row (credit-tier hypothesis discharged). -/
theorem C9_singleton_batch_encodes_zero_witness :
    ∃ fr, create_new_features (fun _ => 0) [({} : RawRecord)] = some [fr] ∧
      fr.country_enc = 0 ∧ fr.city_enc = 0 ∧ fr.property_type_enc = 0 ∧
      fr.employment_type_enc = 0 ∧ fr.currency_enc = 0 :=
  C9_singleton_batch_encodes_zero (fun _ => 0) {}
    (by norm_num [cleanRec, fillna, replace0, credit_tier_of])

/-- Example row: one late payment, everything else defaulted. -/
def rowLate1 : RawRecord := { late_payments_count := some 1 }

/-- Example row: four late payments, everything else defaulted. -/
def rowLate4 : RawRecord := { late_payments_count := some 4 }

lemma clip_div_maxOr1_single (x : ℚ) :
    clip 0 1 (x / maxOr1 [x]) = if 0 < x then 1 else 0 := by
  rw [maxOr1_singleton]
  by_cases hx : 0 < x
  · rw [if_pos hx, if_pos hx, div_self (ne_of_gt hx)]
    simp [clip]
  · have hx' : x ≤ 0 := not_lt.mp hx
    rw [if_neg hx, if_neg hx, div_one]
    unfold clip
    rw [min_eq_right (le_trans hx' zero_le_one), max_eq_left hx']

lemma deriveRec_payment_risk_composite (log1p : ℚ → ℚ) (s : BatchStats)
    (tier : ℤ) (c : CleanRecord) :
    (deriveRec log1p s tier c).payment_risk_composite =
      clip 0 1 (clip 0 1 (c.late_payments_count / s.max_late) * 0.25 +
        clip 0 1 (c.missed_payments_count / s.max_missed) * 0.35 +
        (1 - clip 0 1 (c.on_time_payments_percent / 100)) * 0.20 +
        clip 0 1 (c.late_payments_count / replace0 c.rental_history_years 0.5) * 0.20) *
        10 := rfl

/-- C10: in a one-row batch, late_payments_normalized is 1 when the row's
late-payment count is positive and 0 otherwise (likewise for
missed_payments_normalized), because each count is divided by the batch
maximum of the same column; consequently the same row gets a different
payment_risk_composite depending on the batch it is scored within. -/
theorem C10_normalization_batch_relative (log1p : ℚ → ℚ) :
    (∀ r, (credit_tier_of (cleanRec r).credit_score).isSome = true →
      ∃ fr, create_new_features log1p [r] = some [fr] ∧
        fr.late_payments_normalized =
          (if 0 < (cleanRec r).late_payments_count then 1 else 0) ∧
        fr.missed_payments_normalized =
          (if 0 < (cleanRec r).missed_payments_count then 1 else 0)) ∧
    (∃ frA frA2 frB,
      create_new_features log1p [rowLate1] = some [frA] ∧
      create_new_features log1p [rowLate1, rowLate4] = some [frA2, frB] ∧
      frA.payment_risk_composite ≠ frA2.payment_risk_composite) := by
  constructor
  · intro r h
    have h' : ∀ x ∈ [r], (credit_tier_of (cleanRec x).credit_score).isSome = true := by
      simpa using h
    exact ⟨_, create_some log1p [r] h',
      clip_div_maxOr1_single _, clip_div_maxOr1_single _⟩
  · have hok : ∀ x ∈ [rowLate1, rowLate4],
        (credit_tier_of (cleanRec x).credit_score).isSome = true := by
      intro x hx
      simp only [List.mem_cons, List.not_mem_nil, or_false] at hx
      rcases hx with rfl | rfl <;>
        norm_num [rowLate1, rowLate4, cleanRec, fillna, replace0, credit_tier_of]
    have hok1 : ∀ x ∈ [rowLate1],
        (credit_tier_of (cleanRec x).credit_score).isSome = true := by
      intro x hx
      simp only [List.mem_cons, List.not_mem_nil, or_false] at hx
      rcases hx with rfl
      norm_num [rowLate1, cleanRec, fillna, replace0, credit_tier_of]
    refine ⟨_, _, _, create_some log1p [rowLate1] hok1,
      create_some log1p [rowLate1, rowLate4] hok, ?_⟩
    dsimp only
    rw [deriveRec_payment_risk_composite, deriveRec_payment_risk_composite]
    norm_num [rowLate1, rowLate4, cleanRec, fillna, replace0, batchStats,
      maxOr1, colMax, clip, max_def, min_def]

/-- C10 witness: the all-defaults row has zero late and missed counts and
both normalized features equal 0 (credit-tier hypothesis discharged). -/
theorem C10_normalization_batch_relative_witness :
    ∃ fr, create_new_features (fun _ => 0) [({} : RawRecord)] = some [fr] ∧
      fr.late_payments_normalized =
        (if 0 < (cleanRec ({} : RawRecord)).late_payments_count then 1 else 0) ∧
      fr.missed_payments_normalized =
        (if 0 < (cleanRec ({} : RawRecord)).missed_payments_count then 1 else 0) :=
  (C10_normalization_batch_relative (fun _ => 0)).1 {}
    (by norm_num [cleanRec, fillna, replace0, credit_tier_of])

/-- C5 (amended): feature engineering never errors because of a missing
field — a missing credit score is defaulted into the valid binning range,
and every other field has a documented default.  In the engineered output
of a one-row batch, each raw field equals the supplied value when present
and the documented default when absent, with the five critical fields
(`monthly_rent`, `monthly_income`, `credit_score`, `market_median_rent`,
`property_size_sqft`) additionally treating an explicit 0 as unset
(`replace0`).  Several documented defaults are 0 (see the companion
counterexample), contrary to the claim's "not zero". -/
theorem C5_missing_fields_defaulted (log1p : ℚ → ℚ) (r : RawRecord) :
    (r.credit_score = none → (create_new_features log1p [r]).isSome = true) ∧
    ((credit_tier_of (cleanRec r).credit_score).isSome = true →
      ∃ fr, create_new_features log1p [r] = some [fr] ∧
        fr.raw.bedrooms = r.bedrooms.getD 1 ∧
        fr.raw.bathrooms = r.bathrooms.getD 1 ∧
        fr.raw.square_feet = r.square_feet.getD 800 ∧
        fr.raw.property_age_years = r.property_age_years.getD 15 ∧
        fr.raw.parking_spaces = r.parking_spaces.getD 0 ∧
        fr.raw.pets_allowed = r.pets_allowed.getD 0 ∧
        fr.raw.furnished = r.furnished.getD 0 ∧
        fr.raw.monthly_rent = replace0 (r.monthly_rent.getD 10000) 10000 ∧
        fr.raw.security_deposit = r.security_deposit.getD 20000 ∧
        fr.raw.lease_term_months = r.lease_term_months.getD 12 ∧
        fr.raw.tenant_age = r.tenant_age.getD 35 ∧
        fr.raw.monthly_income = replace0 (r.monthly_income.getD 40000) 40000 ∧
        fr.raw.employment_verified = r.employment_verified.getD 0 ∧
        fr.raw.income_verified = r.income_verified.getD 0 ∧
        fr.raw.credit_score = replace0 (r.credit_score.getD 650) 650 ∧
        fr.raw.rental_history_years = r.rental_history_years.getD 3 ∧
        fr.raw.previous_evictions = r.previous_evictions.getD 0 ∧
        fr.raw.market_median_rent = replace0 (r.market_median_rent.getD 12000) 12000 ∧
        fr.raw.days_to_rent_property = r.days_to_rent_property.getD 30 ∧
        fr.raw.local_unemployment_rate = r.local_unemployment_rate.getD 5 ∧
        fr.raw.inflation_rate = r.inflation_rate.getD 5 ∧
        fr.raw.number_of_bedrooms = r.number_of_bedrooms.getD 1 ∧
        fr.raw.property_size_sqft = replace0 (r.property_size_sqft.getD 800) 800 ∧
        fr.raw.property_age = r.property_age.getD 15 ∧
        fr.raw.on_time_payments_percent = r.on_time_payments_percent.getD 95 ∧
        fr.raw.late_payments_count = r.late_payments_count.getD 0 ∧
        fr.raw.missed_payments_count = r.missed_payments_count.getD 0 ∧
        fr.raw.country = r.country.getD "Unknown" ∧
        fr.raw.city = r.city.getD "Unknown" ∧
        fr.raw.property_type = r.property_type.getD "Apartment" ∧
        fr.raw.employment_type = r.employment_type.getD "Unknown" ∧
        fr.raw.currency = r.currency.getD "INR") := by
  constructor
  · intro h
    have h' : ∀ x ∈ [r], (credit_tier_of (cleanRec x).credit_score).isSome = true := by
      intro x hx
      simp only [List.mem_cons, List.not_mem_nil, or_false] at hx
      subst hx
      norm_num [cleanRec, fillna, replace0, h, credit_tier_of]
    rw [create_some log1p [r] h']
    rfl
  · intro h
    have h' : ∀ x ∈ [r], (credit_tier_of (cleanRec x).credit_score).isSome = true := by
      simpa using h
    exact ⟨_, create_some log1p [r] h', rfl, rfl, rfl, rfl, rfl, rfl, rfl, rfl,
      rfl, rfl, rfl, rfl, rfl, rfl, rfl, rfl, rfl, rfl, rfl, rfl, rfl, rfl,
      rfl, rfl, rfl, rfl, rfl, rfl, rfl, rfl, rfl, rfl⟩

/-- C5 counterexample to the claim as stated: a row supplied with none of
the fields gets engineered successfully, and the documented defaults for
parking_spaces, pets_allowed, furnished, employment_verified,
income_verified, previous_evictions, late_payments_count and
missed_payments_count are all 0 — refuting "every expected raw field has a
documented domain-realistic default value that is not zero". -/
theorem C5_some_defaults_are_zero :
    ∃ fr, create_new_features (fun _ => 0) [({} : RawRecord)] = some [fr] ∧
      fr.raw.parking_spaces = 0 ∧ fr.raw.pets_allowed = 0 ∧
      fr.raw.furnished = 0 ∧ fr.raw.employment_verified = 0 ∧
      fr.raw.income_verified = 0 ∧ fr.raw.previous_evictions = 0 ∧
      fr.raw.late_payments_count = 0 ∧ fr.raw.missed_payments_count = 0 := by
  refine ⟨_, create_some (fun _ => 0) [{}] ?_, rfl, rfl, rfl, rfl, rfl, rfl, rfl, rfl⟩
  intro x hx
  simp only [List.mem_cons, List.not_mem_nil, or_false] at hx
  subst hx
  norm_num [cleanRec, fillna, replace0, credit_tier_of]

/-- C5 witness: the wholly-empty record (missing credit score) is engineered
without error. -/
theorem C5_missing_fields_defaulted_witness :
    (create_new_features (fun _ => 0) [({} : RawRecord)]).isSome = true :=
  (C5_missing_fields_defaulted (fun _ => 0) {}).1 rfl

/-- C6: re-applying the transform to its own output changes nothing: the
second application cleans the already-cleaned raw columns to themselves
(fillna sees every column present; replace(0, d) is idempotent), recomputes
identical batch statistics and so recomputes every engineered column to the
same value. -/
theorem C6_reapplication_fixed_point (log1p : ℚ → ℚ) (b : List RawRecord)
    (h : ∀ x ∈ b, (credit_tier_of (cleanRec x).credit_score).isSome = true) :
    ∃ out, create_new_features log1p b = some out ∧
      create_new_features log1p (out.map to_raw_input) = some out := by
  refine ⟨_, create_some log1p b h, ?_⟩
  set D := fun c : CleanRecord =>
    deriveRec log1p (batchStats (b.map cleanRec))
      ((credit_tier_of c.credit_score).getD 0) c with hD
  have key : (((b.map cleanRec).map D).map to_raw_input).map cleanRec =
      b.map cleanRec := by
    rw [List.map_map, List.map_map]
    apply mapEqSelf
    intro c hc
    obtain ⟨x, hx, rfl⟩ := List.mem_map.mp hc
    show cleanRec (to_raw_input (D (cleanRec x))) = cleanRec x
    rw [hD]
    rw [to_raw_input_deriveRec, clean_raw_again_clean]
  have h2 : ∀ y ∈ ((b.map cleanRec).map D).map to_raw_input,
      (credit_tier_of (cleanRec y).credit_score).isSome = true := by
    intro y hy
    rw [List.map_map] at hy
    obtain ⟨c, hc, rfl⟩ := List.mem_map.mp hy
    obtain ⟨x, hx, rfl⟩ := List.mem_map.mp hc
    show (credit_tier_of
      (cleanRec (to_raw_input (D (cleanRec x)))).credit_score).isSome = true
    rw [hD, to_raw_input_deriveRec, clean_raw_again_clean]
    exact h x hx
  rw [create_some log1p (((b.map cleanRec).map D).map to_raw_input) h2, key]

/-- C6 witness: a singleton batch of the all-defaults record (credit-tier
hypothesis discharged). -/
theorem C6_reapplication_fixed_point_witness :
    ∃ out, create_new_features (fun _ => 0) [({} : RawRecord)] = some out ∧
      create_new_features (fun _ => 0) (out.map to_raw_input) = some out :=
  C6_reapplication_fixed_point (fun _ => 0) [{}] (by
    intro x hx
    simp only [List.mem_cons, List.not_mem_nil, or_false] at hx
    subst hx
    norm_num [cleanRec, fillna, replace0, credit_tier_of])

end Leaseth
